import Mathlib

/-!
Shallow embedding of the DriveTime artifact store and its HTTP / tool-call
handlers (src/lib/store.ts, src/types/artifact.ts, the /api/artifacts route
handlers, and the MCP tool-call route's handleToolCall).

The external Supabase table is modelled as a list of rows; each store
function takes an explicit flag (or optional message) standing for the
outcome of its single round trip to the external store, mirroring the
`{ data, error }` responses the code destructures.  JavaScript string
truthiness (`undefined`/`''` are falsy) is modelled by jsTruthyStr; JS
`String.prototype.slice(0, n)` by jsSlice.
-/

namespace DriveTime

/-- `ArtifactType` from src/types/artifact.ts. -/
inductive ArtifactType where
  | idea | article | question | screenshot | note
  deriving DecidableEq, Repr

/-- `ArtifactStatus` from src/types/artifact.ts. -/
inductive ArtifactStatus where
  | pending | processing | ready | playing | completed
  deriving DecidableEq, Repr

/-- The `Artifact` interface (camelCase domain shape). Optional fields are
`Option`; `undefined` is `none`. -/
structure Artifact where
  id : String
  userId : String
  type : ArtifactType
  title : String
  rawContent : String
  summary : Option String := none
  fullAudioText : Option String := none
  sourceUrl : Option String := none
  imageData : Option String := none
  status : ArtifactStatus
  createdAt : String
  playedAt : Option String := none
  completedAt : Option String := none
  tags : List String := []
  dayBucket : String
  deriving DecidableEq, Repr

/-- The snake_case database row shape (`ArtifactRow` in store.ts).  The TS
row declares `type`/`status` as plain strings and store.ts casts them with
`as`; every write this system performs goes through the typed `Artifact`
shape, so the row is modelled with the enums directly. -/
structure ArtifactRow where
  id : String
  user_id : String
  type : ArtifactType
  title : String
  raw_content : String
  summary : Option String
  full_audio_text : Option String
  source_url : Option String
  image_data : Option String
  status : ArtifactStatus
  created_at : String
  played_at : Option String
  completed_at : Option String
  tags : List String
  day_bucket : String
  deriving DecidableEq, Repr

/-- JavaScript truthiness of an optional string: `undefined`/`null` and the
empty string are falsy, every other string is truthy. -/
def jsTruthyStr : Option String → Bool
  | none => false
  | some s => !(s == "")

/-- JavaScript `a || b` for an optional string `a` and a string default. -/
def jsOrStr (a : Option String) (b : String) : String :=
  match a with
  | none => b
  | some s => if s == "" then b else s

/-- JavaScript `s.slice(0, n)` (we identify UTF-16 code units with chars). -/
def jsSlice (s : String) (n : Nat) : String :=
  ⟨s.data.take n⟩

/-- `now.toISOString().split('T')[0]`: the part of the string before the
first `'T'` (the whole string when no `'T'` occurs). -/
def isoDatePart (s : String) : String :=
  ⟨s.data.takeWhile (fun c => c != 'T')⟩

/-- `rowToArtifact` from store.ts (`?? undefined` is the identity here). -/
def rowToArtifact (row : ArtifactRow) : Artifact :=
  { id := row.id
    userId := row.user_id
    type := row.type
    title := row.title
    rawContent := row.raw_content
    summary := row.summary
    fullAudioText := row.full_audio_text
    sourceUrl := row.source_url
    imageData := row.image_data
    status := row.status
    createdAt := row.created_at
    playedAt := row.played_at
    completedAt := row.completed_at
    tags := row.tags
    dayBucket := row.day_bucket }

/-- `artifactToRow` from store.ts (`?? null` is the identity here). -/
def artifactToRow (a : Artifact) : ArtifactRow :=
  { id := a.id
    user_id := a.userId
    type := a.type
    title := a.title
    raw_content := a.rawContent
    summary := a.summary
    full_audio_text := a.fullAudioText
    source_url := a.sourceUrl
    image_data := a.imageData
    status := a.status
    created_at := a.createdAt
    played_at := a.playedAt
    completed_at := a.completedAt
    tags := a.tags
    day_bucket := a.dayBucket }

/-- The external `artifacts` table. -/
abbrev DB := List ArtifactRow

/-- `.select('*').eq('id', id).single()`: succeeds exactly when one row
matches the filter, errors (modelled as `none`) otherwise. -/
def dbSingle (db : DB) (id : String) : Option ArtifactRow :=
  match db.filter (fun r => r.id == id) with
  | [r] => some r
  | _ => none

/-- `.order('created_at', { ascending: false })`: most recent first. -/
def rowCreatedDesc (a b : ArtifactRow) : Prop :=
  b.created_at ≤ a.created_at

instance : DecidableRel rowCreatedDesc :=
  fun a b => inferInstanceAs (Decidable (b.created_at ≤ a.created_at))

/-- `getArtifact` (store.ts): `if (error || !data) return null`. -/
def getArtifact (err : Bool) (db : DB) (id : String) : Option Artifact :=
  if err then none
  else (dbSingle db id).map rowToArtifact

/-- `getAllArtifacts` (store.ts): user-scoped select ordered by
`created_at` descending; `if (error || !data) return []`. -/
def getAllArtifacts (err : Bool) (db : DB) (userId : String) : List Artifact :=
  if err then []
  else (List.insertionSort rowCreatedDesc
    (db.filter (fun r => r.user_id == userId))).map rowToArtifact

/-- `getArtifactsByDay` (store.ts). -/
def getArtifactsByDay (err : Bool) (db : DB) (userId date : String) : List Artifact :=
  if err then []
  else (List.insertionSort rowCreatedDesc
    ((db.filter (fun r => r.user_id == userId)).filter
      (fun r => r.day_bucket == date))).map rowToArtifact

/-- `getArtifactsByStatus` (store.ts). -/
def getArtifactsByStatus (err : Bool) (db : DB) (userId : String)
    (status : ArtifactStatus) : List Artifact :=
  if err then []
  else (List.insertionSort rowCreatedDesc
    ((db.filter (fun r => r.user_id == userId)).filter
      (fun r => r.status == status))).map rowToArtifact

/-- `getPendingArtifacts` (store.ts): `return getArtifactsByStatus(userId, 'ready')`. -/
def getPendingArtifacts (err : Bool) (db : DB) (userId : String) : List Artifact :=
  getArtifactsByStatus err db userId .ready

/-- `.upsert(row, { onConflict: 'id' })`: replace the row with a matching
id, or append when none matches. -/
def upsertRow (db : DB) (row : ArtifactRow) : DB :=
  if db.any (fun r => r.id == row.id) then
    db.map (fun r => if r.id == row.id then row else r)
  else db ++ [row]

/-- `saveArtifact` (store.ts): `if (error) throw error` — the store error is
propagated, so the result is an `Except`. -/
def saveArtifact (err : Option String) (db : DB) (a : Artifact) :
    Except String DB :=
  match err with
  | some e => .error e
  | none => .ok (upsertRow db (artifactToRow a))

/-- The four camelCase patch fields `updateArtifactStatus` reads from its
`additionalFields` argument (`summary`, `fullAudioText`, `title`, `tags`);
`some` means the field was supplied (`!== undefined`). -/
structure StatusPatch where
  summary : Option String := none
  fullAudioText : Option String := none
  title : Option String := none
  tags : Option (List String) := none
  deriving DecidableEq, Repr

/-- The `updates` record `updateArtifactStatus` builds: a set of columns to
write; `some` means the key is present in the record. -/
structure RowUpdates where
  status : ArtifactStatus
  played_at : Option String := none
  completed_at : Option String := none
  summary : Option String := none
  full_audio_text : Option String := none
  title : Option String := none
  tags : Option (List String) := none
  deriving DecidableEq, Repr

/-- `.update(updates)` on one row: exactly the columns present in the
record are overwritten. -/
def applyRowUpdates (u : RowUpdates) (r : ArtifactRow) : ArtifactRow :=
  { r with
    status := u.status
    played_at := match u.played_at with | some v => some v | none => r.played_at
    completed_at := match u.completed_at with | some v => some v | none => r.completed_at
    summary := match u.summary with | some v => some v | none => r.summary
    full_audio_text := match u.full_audio_text with | some v => some v | none => r.full_audio_text
    title := match u.title with | some v => v | none => r.title
    tags := match u.tags with | some v => v | none => r.tags }

/-- The `updates` record built by `updateArtifactStatus` (store.ts lines
136-151): always `status`; `played_at`/`completed_at` stamped with the
clock only when entering `playing`/`completed` with the current value
falsy; then the supplied patch fields. -/
def buildUpdates (now : String) (current : Artifact) (status : ArtifactStatus)
    (patch : Option StatusPatch) : RowUpdates :=
  let u : RowUpdates := { status := status }
  let u := if status = .playing ∧ jsTruthyStr current.playedAt = false then
      { u with played_at := some now } else u
  let u := if status = .completed ∧ jsTruthyStr current.completedAt = false then
      { u with completed_at := some now } else u
  match patch with
  | none => u
  | some p =>
      { u with summary := p.summary, full_audio_text := p.fullAudioText,
               title := p.title, tags := p.tags }

/-- `updateArtifactStatus` (store.ts): read the current artifact (absent →
`null`), build the column updates, apply them via
`.update(updates).eq('id', id).select().single()`, and return the updated
record.  `errGet`/`errUpd` are the outcomes of the two round trips. -/
def updateArtifactStatus (errGet errUpd : Bool) (now : String) (db : DB)
    (id : String) (status : ArtifactStatus) (patch : Option StatusPatch) :
    Option Artifact × DB :=
  match getArtifact errGet db id with
  | none => (none, db)
  | some current =>
    if errUpd then (none, db)
    else
      let u := buildUpdates now current status patch
      let db' := db.map (fun r => if r.id == id then applyRowUpdates u r else r)
      match dbSingle db' id with
      | none => (none, db')
      | some r => (some (rowToArtifact r), db')

/-- `deleteArtifact` (store.ts): `.delete().eq('id', id)` then
`return !error`.  The external delete removes the matching rows and
reports an error only for a store failure — a filter matching zero rows is
not an error. -/
def deleteArtifact (err : Bool) (db : DB) (id : String) : Bool × DB :=
  if err then (false, db)
  else (true, db.filter (fun r => !(r.id == id)))

/-- The per-day statistics of a `DayGroup` (src/types/artifact.ts). -/
structure DayStats where
  total : Nat
  pending : Nat
  ready : Nat
  completed : Nat
  deriving DecidableEq, Repr

/-- `DayGroup` from src/types/artifact.ts. -/
structure DayGroup where
  date : String
  artifacts : List Artifact
  stats : DayStats
  deriving DecidableEq, Repr

/-- One step of the grouping loop in `getDayGroups`: `groups.get(bucket)`,
push, `groups.set(bucket, ...)`.  A JS `Map` keeps keys in first-insertion
order, so the map is a key-ordered association list. -/
def pushGroup (groups : List (String × List Artifact)) (a : Artifact) :
    List (String × List Artifact) :=
  if groups.any (fun p => p.1 == a.dayBucket) then
    groups.map (fun p => if p.1 == a.dayBucket then (p.1, p.2 ++ [a]) else p)
  else groups ++ [(a.dayBucket, [a])]

/-- The grouping loop of `getDayGroups` over the user's artifacts. -/
def groupByDay (l : List Artifact) : List (String × List Artifact) :=
  l.foldl pushGroup []

/-- Building one `DayGroup` entry with its stats (store.ts lines 185-194). -/
def mkDayGroup (date : String) (arts : List Artifact) : DayGroup :=
  { date := date
    artifacts := arts
    stats :=
      { total := arts.length
        pending := (arts.filter (fun a =>
            a.status == .pending || a.status == .processing)).length
        ready := (arts.filter (fun a => a.status == .ready)).length
        completed := (arts.filter (fun a => a.status == .completed)).length } }

/-- The comparator `(a, b) => b.date.localeCompare(a.date)`: `a` may come
before `b` exactly when `b.date ≤ a.date` (descending by date). -/
def dayGroupDateDesc (a b : DayGroup) : Prop :=
  b.date ≤ a.date

instance : DecidableRel dayGroupDateDesc :=
  fun a b => inferInstanceAs (Decidable (b.date ≤ a.date))

instance : IsTotal DayGroup dayGroupDateDesc :=
  ⟨fun a b => le_total b.date a.date⟩

instance : IsTrans DayGroup dayGroupDateDesc :=
  ⟨fun _ _ _ hab hbc => le_trans hbc hab⟩

/-- `getDayGroups` (store.ts): fetch all of the user's artifacts, bucket by
`dayBucket`, compute stats, sort groups by date descending. -/
def getDayGroups (err : Bool) (db : DB) (userId : String) : List DayGroup :=
  List.insertionSort dayGroupDateDesc
    ((groupByDay (getAllArtifacts err db userId)).map (fun p => mkDayGroup p.1 p.2))

/-! ### The creation operations -/

/-- The demo user id used by the route handlers. -/
def DEMO_USER_ID : String := "demo-user"

/-- `CreateArtifactInput` from src/types/artifact.ts, the `POST
/api/artifacts` body. -/
structure CreateArtifactInput where
  type : ArtifactType
  content : String
  title : Option String := none
  sourceUrl : Option String := none
  imageData : Option String := none
  tags : Option (List String) := none
  deriving DecidableEq, Repr

/-- `content.slice(0, 100) + (content.length > 100 ? '...' : '')` — the
title derivation shared by both creation operations. -/
def deriveTitle (content : String) : String :=
  jsSlice content 100 ++ (if content.length > 100 then "..." else "")

/-- The artifact built by `POST /api/artifacts` (app/api/artifacts/route.ts):
`type: imageData ? 'screenshot' : sourceUrl ? 'article' : type`; `genId` is
the generated UUID and `now` the ISO clock string. -/
def postCreateArtifact (genId now : String) (b : CreateArtifactInput) : Artifact :=
  { id := genId
    userId := DEMO_USER_ID
    type := if jsTruthyStr b.imageData then .screenshot
            else if jsTruthyStr b.sourceUrl then .article
            else b.type
    title := deriveTitle b.content
    rawContent := b.content
    sourceUrl := b.sourceUrl
    imageData := b.imageData
    status := .pending
    createdAt := now
    tags := b.tags.getD []
    dayBucket := isoDatePart now }

/-- The `POST /api/artifacts` handler: build the artifact, save it, return
it (a store error propagates out of `saveArtifact` and is caught as a 500,
modelled by the `Except` error). -/
def postArtifacts (errSave : Option String) (genId now : String) (db : DB)
    (b : CreateArtifactInput) : Except String (Artifact × DB) :=
  let artifact := postCreateArtifact genId now b
  match saveArtifact errSave db artifact with
  | .error e => .error e
  | .ok db' => .ok (artifact, db')

/-- JavaScript `s.startsWith(p)` as a character-list prefix test. -/
def jsStartsWith (s p : String) : Bool :=
  p.data.isPrefixOf s.data

/-- `content.startsWith('http://') || content.startsWith('https://')` — the
URL-shape test used by the `add_to_queue` tool. -/
def isUrlContent (content : String) : Bool :=
  jsStartsWith content "http://" || jsStartsWith content "https://"

/-- The artifact built by the `add_to_queue` tool (MCP route): URL-shaped
content forces `type: 'article'` and `sourceUrl: content`; `imageData` is
never set by this operation. -/
def addToQueueArtifact (genId now : String) (type : ArtifactType)
    (content : String) : Artifact :=
  let isUrl := isUrlContent content
  { id := genId
    userId := DEMO_USER_ID
    type := if isUrl then .article else type
    title := deriveTitle content
    rawContent := content
    sourceUrl := if isUrl then some content else none
    status := .pending
    createdAt := now
    tags := []
    dayBucket := isoDatePart now }

/-! ### The `[id]` route handlers -/

/-- The JSON response of the `DELETE /api/artifacts/[id]` handler. -/
inductive DeleteResponse where
  | success
  | notFound (error : String)
  deriving DecidableEq, Repr

/-- The `DELETE /api/artifacts/[id]` handler: `deleteArtifact`, then 404
`'Artifact not found'` when it reports `false`, `{success: true}` otherwise. -/
def deleteHandler (err : Bool) (db : DB) (id : String) : DeleteResponse × DB :=
  let r := deleteArtifact err db id
  if r.1 then (.success, r.2)
  else (.notFound "Artifact not found", r.2)

/-! ### The tool-call facade (`handleToolCall` in the MCP route) -/

/-- An episode entry of a `structuredContent.episodes` array. -/
structure EpisodeItem where
  id : String
  position : Nat
  type : ArtifactType
  title : String
  deriving DecidableEq, Repr

/-- An `_meta.episodes` entry (show_drivetime / get_todays_episodes). -/
structure EpisodeMetaItem where
  id : String
  position : Nat
  type : ArtifactType
  title : String
  summary : Option String
  rawContent : Option String := none
  deriving DecidableEq, Repr

/-- The `_meta` payloads produced by the tools. -/
inductive MetaPayload where
  | episodes (items : List EpisodeMetaItem)
  | episodeDetail (episodeId : String) (type : ArtifactType)
      (sourceUrl : Option String) (fullContent : String)
  deriving DecidableEq, Repr

/-- The `structuredContent` shapes produced by the five tools and the
default branch.  The default / not-found branches produce the object
`{ error: ... }`, modelled by `errorField`. -/
inductive StructuredContent where
  | showDrive (episodeCount : Nat) (message : String)
  | episodeList (count : Nat) (episodes : List EpisodeItem)
  | episodeContent (id : String) (type : ArtifactType) (title mode : String)
  | episodeCompleted (completed : Bool) (remainingCount : Nat)
  | queued (added : Bool) (id title : String) (type : ArtifactType)
  | errorField (error : String)
  deriving DecidableEq, Repr

/-- One `content` entry (`{ type: 'text', text }`). -/
structure ToolContent where
  type : String
  text : String
  deriving DecidableEq, Repr

/-- The return shape of `handleToolCall`. -/
structure ToolResponse where
  structuredContent : Option StructuredContent := none
  content : List ToolContent
  meta : Option MetaPayload := none
  deriving DecidableEq, Repr

/-- The loosely-typed `args` record of a tool call; absent keys are the
defaults (`episode_id`/`content` are read through `as string` casts,
`mode`/`status` through `|| dflt` fallbacks). -/
structure ToolArgs where
  episode_id : String := ""
  mode : Option String := none
  status : Option String := none
  type : ArtifactType := .idea
  content : String := ""
  deriving DecidableEq, Repr

/-- The lower-case name of an artifact type (its TS string value). -/
def typeStr : ArtifactType → String
  | .idea => "idea"
  | .article => "article"
  | .question => "question"
  | .screenshot => "screenshot"
  | .note => "note"

/-- `${n} episode${n > 1 ? 's' : ''}` pluralization. -/
def pluralS (n : Nat) : String := if n > 1 then "s" else ""

/-- The numbered `1. [TYPE] title` listing of `get_todays_episodes`. -/
def episodeListing (artifacts : List Artifact) : String :=
  String.intercalate "\n"
    (artifacts.enum.map (fun p =>
      toString (p.1 + 1) ++ ". [" ++ (typeStr p.2.type).toUpper ++ "] " ++ p.2.title))

/-- `handleToolCall` (MCP route, lines 310-515): dispatch on the tool name.
`storeErr` is the outcome of the store read round trips, `errSave` of the
`saveArtifact` write (whose store error is the only fault that escapes the
handler, via `add_to_queue`), `expand` the external `expandForAudio` LLM
call, `now`/`genId` the clock and UUID source. -/
def handleToolCall (storeErr : Bool) (errSave : Option String)
    (now genId : String) (expand : String → ArtifactType → String)
    (db : DB) (name : String) (args : ToolArgs) :
    Except String (ToolResponse × DB) :=
  if name = "show_drivetime" then
    let artifacts := getPendingArtifacts storeErr db DEMO_USER_ID
    let n := artifacts.length
    .ok ({ structuredContent := some (.showDrive n
             (if n > 0 then
               "You have " ++ toString n ++ " episode" ++ pluralS n ++ " ready."
              else "Your queue is empty. Add some ideas!"))
           content := [⟨"text",
             if n > 0 then
               "DriveTime is ready with " ++ toString n ++ " episode" ++
                 pluralS n ++ " in your queue."
             else
               "DriveTime is ready. Your queue is empty - add some ideas, questions, or notes!"⟩]
           meta := some (.episodes (artifacts.enum.map (fun p =>
             { id := p.2.id, position := p.1 + 1, type := p.2.type,
               title := p.2.title, summary := p.2.summary }))) }, db)
  else if name = "get_todays_episodes" then
    let status := jsOrStr args.status "pending"
    let artifacts :=
      if status == "pending" then getPendingArtifacts storeErr db DEMO_USER_ID
      else
        let all := getAllArtifacts storeErr db DEMO_USER_ID
        if status == "completed" then all.filter (fun a => a.status == .completed)
        else all
    let n := artifacts.length
    .ok ({ structuredContent := some (.episodeList n
             (artifacts.enum.map (fun p =>
               { id := p.2.id, position := p.1 + 1, type := p.2.type,
                 title := p.2.title })))
           content := [⟨"text",
             if n > 0 then
               "Here are your " ++ toString n ++ " episode" ++ pluralS n ++
                 ":\n\n" ++ episodeListing artifacts ++
                 "\n\nWant me to read the first one?"
             else "No episodes in queue. Use show_drivetime to add some!"⟩]
           meta := some (.episodes (artifacts.enum.map (fun p =>
             { id := p.2.id, position := p.1 + 1, type := p.2.type,
               title := p.2.title, summary := p.2.summary,
               rawContent := some p.2.rawContent }))) }, db)
  else if name = "get_episode_content" then
    let episodeId := args.episode_id
    let mode := jsOrStr args.mode "summary"
    match getArtifact storeErr db episodeId with
    | none =>
        .ok ({ structuredContent := some (.errorField "Episode not found")
               content := [⟨"text", "Episode not found."⟩] }, db)
    | some artifact =>
        let upd := updateArtifactStatus storeErr storeErr now db episodeId .playing none
        let contentText :=
          if mode == "full" then jsOrStr artifact.fullAudioText artifact.rawContent
          else jsOrStr artifact.summary artifact.rawContent
        let contentText :=
          if mode == "full" && !(jsTruthyStr artifact.fullAudioText) then
            expand artifact.rawContent artifact.type
          else contentText
        .ok ({ structuredContent := some (.episodeContent artifact.id
                 artifact.type artifact.title mode)
               content := [⟨"text",
                 "**" ++ (typeStr artifact.type).toUpper ++ ": " ++
                   artifact.title ++ "**\n\n" ++ contentText ++
                   "\n\n---\n*Say \"next\" to continue, \"more detail\" for full version, or ask me anything about this.*"⟩]
               meta := some (.episodeDetail artifact.id artifact.type
                 artifact.sourceUrl artifact.rawContent) }, upd.2)
  else if name = "mark_episode_complete" then
    let upd := updateArtifactStatus storeErr storeErr now db args.episode_id
      .completed none
    match upd.1 with
    | none =>
        .ok ({ structuredContent := some (.errorField "Episode not found")
               content := [⟨"text", "Episode not found."⟩] }, upd.2)
    | some _ =>
        let remaining := getPendingArtifacts storeErr upd.2 DEMO_USER_ID
        let n := remaining.length
        .ok ({ structuredContent := some (.episodeCompleted true n)
               content := [⟨"text",
                 if n > 0 then
                   "Done! " ++ toString n ++ " more episode" ++ pluralS n ++ " to go."
                 else "All done! Your queue is clear."⟩] }, upd.2)
  else if name = "add_to_queue" then
    let artifact := addToQueueArtifact genId now args.type args.content
    match saveArtifact errSave db artifact with
    | .error e => .error e
    | .ok db' =>
        .ok ({ structuredContent := some (.queued true artifact.id
                 artifact.title artifact.type)
               content := [⟨"text", "Saved \"" ++ artifact.title ++ "\" for later."⟩] }, db')
  else
    .ok ({ structuredContent := some (.errorField ("Unknown tool: " ++ name))
           content := [⟨"text", "Unknown tool: " ++ name⟩] }, db)

/-! ### Helper lemmas -/

/-- The field of the patch argument `updateArtifactStatus` reads as
`additionalFields.summary` (`none` when no patch object or no key). -/
def patchSummary : Option StatusPatch → Option String
  | none => none
  | some p => p.summary

/-- The `fullAudioText` field read from the patch argument. -/
def patchFullAudioText : Option StatusPatch → Option String
  | none => none
  | some p => p.fullAudioText

/-- The `title` field read from the patch argument. -/
def patchTitle : Option StatusPatch → Option String
  | none => none
  | some p => p.title

/-- The `tags` field read from the patch argument. -/
def patchTags : Option StatusPatch → Option (List String)
  | none => none
  | some p => p.tags

lemma jsTruthyStr_iff {o : Option String} :
    jsTruthyStr o = true ↔ ∃ t, o = some t ∧ t ≠ "" := by
  cases o <;> simp [jsTruthyStr]

lemma buildUpdates_spec (now : String) (cur : Artifact) (st : ArtifactStatus)
    (patch : Option StatusPatch) :
    buildUpdates now cur st patch =
      { status := st
        played_at :=
          if st = .playing ∧ jsTruthyStr cur.playedAt = false then some now else none
        completed_at :=
          if st = .completed ∧ jsTruthyStr cur.completedAt = false then some now else none
        summary := patchSummary patch
        full_audio_text := patchFullAudioText patch
        title := patchTitle patch
        tags := patchTags patch } := by
  cases patch <;>
    simp only [buildUpdates, patchSummary, patchFullAudioText, patchTitle, patchTags] <;>
    split_ifs <;> rfl

lemma applyRowUpdates_id (u : RowUpdates) (r : ArtifactRow) :
    (applyRowUpdates u r).id = r.id := rfl

lemma dbSingle_mem_id {db : DB} {id : String} {r : ArtifactRow}
    (h : dbSingle db id = some r) : r.id = id := by
  unfold dbSingle at h
  cases hf : db.filter (fun x => x.id == id) with
  | nil => rw [hf] at h; cases h
  | cons a t =>
    cases t with
    | nil =>
      have ha : a ∈ db.filter (fun x => x.id == id) := by
        rw [hf]; exact List.mem_singleton_self a
      have hpa := (List.mem_filter.mp ha).2
      rw [hf] at h
      injection h with h'
      subst h'
      exact eq_of_beq hpa
    | cons b t2 => rw [hf] at h; cases h

lemma dbSingle_map (db : DB) (id : String) (f : ArtifactRow → ArtifactRow)
    (hf : ∀ r, (f r).id = r.id) :
    dbSingle (db.map f) id = (dbSingle db id).map f := by
  unfold dbSingle
  rw [List.filter_map]
  have hp : ((fun r : ArtifactRow => r.id == id) ∘ f) = fun r => r.id == id :=
    funext fun r => by simp [Function.comp, hf r]
  rw [hp]
  cases db.filter (fun r => r.id == id) with
  | nil => rfl
  | cons a t => cases t with
    | nil => rfl
    | cons b t2 => rfl

lemma updateArtifactStatus_some (now : String) (db : DB) (id : String)
    (st : ArtifactStatus) (patch : Option StatusPatch) (r : ArtifactRow)
    (hr : dbSingle db id = some r) :
    updateArtifactStatus false false now db id st patch =
      (some (rowToArtifact
          (applyRowUpdates (buildUpdates now (rowToArtifact r) st patch) r)),
        db.map (fun x => if x.id == id then
          applyRowUpdates (buildUpdates now (rowToArtifact r) st patch) x else x)) := by
  have hid : r.id = id := dbSingle_mem_id hr
  have hbeq : (r.id == id) = true := beq_iff_eq.mpr hid
  unfold updateArtifactStatus getArtifact
  simp only [Bool.false_eq_true, if_false, hr, Option.map_some']
  have hmap := dbSingle_map db id
    (fun x => if x.id == id then
      applyRowUpdates (buildUpdates now (rowToArtifact r) st patch) x else x)
    (fun x => by by_cases hx : x.id == id <;> simp [hx, applyRowUpdates_id])
  rw [hmap, hr, Option.map_some']
  simp only [hbeq, if_true]

lemma getArtifact_false (db : DB) (id : String) :
    getArtifact false db id = (dbSingle db id).map rowToArtifact := rfl

/-- The grouping-loop invariant: keys are distinct, every processed
artifact's bucket has a group, and each group holds exactly the processed
artifacts of its bucket, in order. -/
def GroupsInv (done : List Artifact) (gs : List (String × List Artifact)) : Prop :=
  (gs.map Prod.fst).Nodup ∧
  (∀ a ∈ done, a.dayBucket ∈ gs.map Prod.fst) ∧
  (∀ p ∈ gs, p.2 = done.filter (fun a => a.dayBucket == p.1))

lemma pushGroup_inv {done : List Artifact} {gs : List (String × List Artifact)}
    (h : GroupsInv done gs) (a : Artifact) :
    GroupsInv (done ++ [a]) (pushGroup gs a) := by
  obtain ⟨hnd, hcov, hfil⟩ := h
  unfold pushGroup
  by_cases hmem : gs.any (fun p => p.1 == a.dayBucket) = true
  · simp only [hmem, if_true]
    have hkeys : (gs.map (fun p => if p.1 == a.dayBucket then (p.1, p.2 ++ [a]) else p)).map
        Prod.fst = gs.map Prod.fst := by
      rw [List.map_map]
      refine List.map_congr_left (fun p _ => ?_)
      by_cases hp : (p.1 == a.dayBucket) = true
      · rw [Function.comp_apply, if_pos hp]
      · rw [Function.comp_apply, if_neg hp]
    refine ⟨hkeys ▸ hnd, ?_, ?_⟩
    · intro a' ha'
      rw [hkeys]
      rcases List.mem_append.mp ha' with h1 | h1
      · exact hcov a' h1
      · rw [List.mem_singleton] at h1
        subst h1
        rcases List.any_eq_true.mp hmem with ⟨p, hp, hpe⟩
        exact List.mem_map.mpr ⟨p, hp, eq_of_beq hpe⟩
    · intro p' hp'
      rcases List.mem_map.mp hp' with ⟨p, hp, hpeq⟩
      rw [← hpeq]
      by_cases hpb : (p.1 == a.dayBucket) = true
      · rw [if_pos hpb]
        dsimp only
        rw [List.filter_append]
        have hb : (a.dayBucket == p.1) = true := beq_iff_eq.mpr (eq_of_beq hpb).symm
        simp only [List.filter_cons, hb, if_true, List.filter_nil]
        rw [← hfil p hp]
      · rw [if_neg hpb]
        rw [List.filter_append]
        have hb : (a.dayBucket == p.1) = false := by
          refine beq_eq_false_iff_ne.mpr fun he => ?_
          exact hpb (beq_iff_eq.mpr he.symm)
        simp only [List.filter_cons, hb, Bool.false_eq_true, if_false, List.filter_nil,
          List.append_nil]
        exact hfil p hp
  · rw [Bool.not_eq_true] at hmem
    simp only [hmem, Bool.false_eq_true, if_false]
    have hnotkey : a.dayBucket ∉ gs.map Prod.fst := by
      intro hk
      rcases List.mem_map.mp hk with ⟨p, hp, hpe⟩
      have hx : (p.1 == a.dayBucket) = true := beq_iff_eq.mpr hpe
      have hany : (gs.any fun q => q.1 == a.dayBucket) = true :=
        List.any_eq_true.mpr ⟨p, hp, hx⟩
      rw [hmem] at hany
      cases hany
    refine ⟨?_, ?_, ?_⟩
    · rw [List.map_append]
      refine List.nodup_append.mpr ⟨hnd, List.nodup_singleton _, ?_⟩
      intro x hx hx'
      rw [List.map_singleton, List.mem_singleton] at hx'
      subst hx'
      exact hnotkey hx
    · intro a' ha'
      rw [List.map_append]
      rcases List.mem_append.mp ha' with h1 | h1
      · exact List.mem_append_left _ (hcov a' h1)
      · rw [List.mem_singleton] at h1
        subst h1
        exact List.mem_append_right _ (by simp)
    · intro p' hp'
      rcases List.mem_append.mp hp' with h1 | h1
      · rw [hfil p' h1, List.filter_append]
        have hb : (a.dayBucket == p'.1) = false := by
          refine beq_eq_false_iff_ne.mpr fun he => ?_
          exact hnotkey (he ▸ List.mem_map.mpr ⟨p', h1, rfl⟩)
        simp [List.filter_cons, hb]
      · rw [List.mem_singleton] at h1
        subst h1
        dsimp only
        rw [List.filter_append]
        have hdone : done.filter (fun x => x.dayBucket == a.dayBucket) = [] := by
          rw [List.filter_eq_nil_iff]
          intro x hx hb
          exact hnotkey (eq_of_beq hb ▸ hcov x hx)
        simp [hdone]

lemma foldl_pushGroup_inv (l : List Artifact) :
    ∀ (done : List Artifact) (gs : List (String × List Artifact)),
      GroupsInv done gs → GroupsInv (done ++ l) (l.foldl pushGroup gs) := by
  induction l with
  | nil => intro done gs h; simpa using h
  | cons a t ih =>
    intro done gs h
    rw [List.foldl_cons, show done ++ a :: t = (done ++ [a]) ++ t by simp]
    exact ih (done ++ [a]) (pushGroup gs a) (pushGroup_inv h a)

lemma groupByDay_spec (l : List Artifact) :
    ∀ p ∈ groupByDay l, p.2 = l.filter (fun a => a.dayBucket == p.1) := by
  have h0 : GroupsInv [] [] := ⟨List.nodup_nil, by simp, by simp⟩
  have h := foldl_pushGroup_inv l [] [] h0
  simpa [groupByDay] using h.2.2

lemma status_filter_sum (l : List Artifact) :
    (l.filter (fun a => a.status == .pending || a.status == .processing)).length +
      (l.filter (fun a => a.status == .ready)).length +
      (l.filter (fun a => a.status == .completed)).length +
      (l.filter (fun a => a.status == .playing)).length = l.length := by
  induction l with
  | nil => rfl
  | cons a t ih =>
    cases h : a.status <;> simp [List.filter_cons, h] <;> omega

lemma upd_playing_keeps_played (now : String) (db : DB) (id : String)
    (patch : Option StatusPatch) (r : ArtifactRow)
    (hr : dbSingle db id = some r) (ht : jsTruthyStr r.played_at = true) :
    (updateArtifactStatus false false now db id .playing patch).1.map Artifact.playedAt =
      some r.played_at := by
  rw [updateArtifactStatus_some now db id .playing patch r hr]
  show some ((applyRowUpdates (buildUpdates now (rowToArtifact r) .playing patch) r).played_at) =
    some r.played_at
  rw [buildUpdates_spec]
  simp [applyRowUpdates, rowToArtifact, ht]

lemma upd_completed_keeps_completed (now : String) (db : DB) (id : String)
    (patch : Option StatusPatch) (r : ArtifactRow)
    (hr : dbSingle db id = some r) (ht : jsTruthyStr r.completed_at = true) :
    (updateArtifactStatus false false now db id .completed patch).1.map Artifact.completedAt =
      some r.completed_at := by
  rw [updateArtifactStatus_some now db id .completed patch r hr]
  show some ((applyRowUpdates (buildUpdates now (rowToArtifact r) .completed patch) r).completed_at) =
    some r.completed_at
  rw [buildUpdates_spec]
  simp [applyRowUpdates, rowToArtifact, ht]

lemma upd_fst_some (errGet errUpd : Bool) (now : String) (db : DB) (id : String)
    (st : ArtifactStatus) (patch : Option StatusPatch) (a : Artifact)
    (h : (updateArtifactStatus errGet errUpd now db id st patch).1 = some a) :
    ∃ cur, getArtifact errGet db id = some cur := by
  cases hga : getArtifact errGet db id with
  | none =>
    rw [updateArtifactStatus, hga] at h
    cases h
  | some cur => exact ⟨cur, rfl⟩

lemma jsSlice_of_le {s : String} {n : Nat} (h : s.length ≤ n) : jsSlice s n = s := by
  unfold jsSlice
  rw [List.take_of_length_le h]

lemma upd_playing_post (now : String) (db : DB) (id : String)
    (patch : Option StatusPatch) (a₁ : Artifact) (hn : now ≠ "")
    (h₁ : (updateArtifactStatus false false now db id .playing patch).1 = some a₁) :
    ∃ r₁, dbSingle ((updateArtifactStatus false false now db id .playing patch).2) id =
        some r₁ ∧ rowToArtifact r₁ = a₁ ∧ jsTruthyStr r₁.played_at = true := by
  rcases upd_fst_some false false now db id .playing patch a₁ h₁ with ⟨cur, hga⟩
  rw [getArtifact_false] at hga
  rcases Option.map_eq_some'.mp hga with ⟨r, hr, hcur⟩
  have heq := updateArtifactStatus_some now db id .playing patch r hr
  rw [heq] at h₁
  injection h₁ with ha₁
  refine ⟨applyRowUpdates (buildUpdates now (rowToArtifact r) .playing patch) r, ?_, ha₁, ?_⟩
  · rw [show (updateArtifactStatus false false now db id .playing patch).2 =
        db.map (fun x => if x.id == id then
          applyRowUpdates (buildUpdates now (rowToArtifact r) .playing patch) x else x) by
        rw [heq]]
    rw [dbSingle_map db id _
      (fun x => by by_cases hx : (x.id == id) = true <;> simp [hx, applyRowUpdates_id]), hr]
    have hid : (r.id == id) = true := beq_iff_eq.mpr (dbSingle_mem_id hr)
    simp only [Option.map_some']
    rw [if_pos hid]
  · rw [buildUpdates_spec]
    by_cases hc : jsTruthyStr r.played_at = true
    · simp [applyRowUpdates, rowToArtifact, hc]
    · have hcf : jsTruthyStr r.played_at = false := by simpa using hc
      have hb : (now == "") = false := beq_eq_false_iff_ne.mpr hn
      simp [applyRowUpdates, rowToArtifact, hcf]
      simp [jsTruthyStr, hb]

lemma upd_completed_post (now : String) (db : DB) (id : String)
    (patch : Option StatusPatch) (a₁ : Artifact) (hn : now ≠ "")
    (h₁ : (updateArtifactStatus false false now db id .completed patch).1 = some a₁) :
    ∃ r₁, dbSingle ((updateArtifactStatus false false now db id .completed patch).2) id =
        some r₁ ∧ rowToArtifact r₁ = a₁ ∧ jsTruthyStr r₁.completed_at = true := by
  rcases upd_fst_some false false now db id .completed patch a₁ h₁ with ⟨cur, hga⟩
  rw [getArtifact_false] at hga
  rcases Option.map_eq_some'.mp hga with ⟨r, hr, hcur⟩
  have heq := updateArtifactStatus_some now db id .completed patch r hr
  rw [heq] at h₁
  injection h₁ with ha₁
  refine ⟨applyRowUpdates (buildUpdates now (rowToArtifact r) .completed patch) r, ?_, ha₁, ?_⟩
  · rw [show (updateArtifactStatus false false now db id .completed patch).2 =
        db.map (fun x => if x.id == id then
          applyRowUpdates (buildUpdates now (rowToArtifact r) .completed patch) x else x) by
        rw [heq]]
    rw [dbSingle_map db id _
      (fun x => by by_cases hx : (x.id == id) = true <;> simp [hx, applyRowUpdates_id]), hr]
    have hid : (r.id == id) = true := beq_iff_eq.mpr (dbSingle_mem_id hr)
    simp only [Option.map_some']
    rw [if_pos hid]
  · rw [buildUpdates_spec]
    by_cases hc : jsTruthyStr r.completed_at = true
    · simp [applyRowUpdates, rowToArtifact, hc]
    · have hcf : jsTruthyStr r.completed_at = false := by simpa using hc
      have hb : (now == "") = false := beq_eq_false_iff_ne.mpr hn
      simp [applyRowUpdates, rowToArtifact, hcf]
      simp [jsTruthyStr, hb]

/-! ### Sample data for concrete witnesses -/

/-- A stored row with status `ready` and no timestamps. -/
def sampleReadyRow : ArtifactRow :=
  { id := "e1", user_id := "demo-user", type := .idea, title := "an idea",
    raw_content := "an idea", summary := none, full_audio_text := none,
    source_url := none, image_data := none, status := .ready,
    created_at := "2024-01-01T08:00:00.000Z", played_at := none,
    completed_at := none, tags := [], day_bucket := "2024-01-01" }

/-- A stored row with status `pending`. -/
def samplePendingRow : ArtifactRow :=
  { sampleReadyRow with id := "e2", status := .pending }

/-- A stored row whose `played_at` and `completed_at` are already stamped. -/
def samplePlayedRow : ArtifactRow :=
  { sampleReadyRow with
      id := "e3",
      status := .playing,
      played_at := some "2024-01-01T09:00:00.000Z",
      completed_at := some "2024-01-01T09:30:00.000Z" }

/-! ### Claim theorems -/

/-- Claim C3: `getPendingArtifacts` returns exactly the result of
`getArtifactsByStatus` with status `'ready'` for every user and store
state; despite its name it does not filter on `'pending'`, as a store
holding one pending artifact shows. -/
theorem C3_getPending_filters_on_ready :
    (∀ (err : Bool) (db : DB) (userId : String),
      getPendingArtifacts err db userId = getArtifactsByStatus err db userId .ready) ∧
    getPendingArtifacts false [samplePendingRow] DEMO_USER_ID = [] ∧
    getArtifactsByStatus false [samplePendingRow] DEMO_USER_ID .pending =
      [rowToArtifact samplePendingRow] := by
  refine ⟨fun _ _ _ => rfl, by decide, by decide⟩

/-- Claim C6: with a failing external store every read operation returns an
absent result (`none` for the single lookup, `[]` for the listings) rather
than an error, while `saveArtifact` propagates the store error; a
successful write returns the upserted table. -/
theorem C6_read_absent_write_propagates :
    (∀ (db : DB) (id : String), getArtifact true db id = none) ∧
    (∀ (db : DB) (userId : String), getAllArtifacts true db userId = []) ∧
    (∀ (db : DB) (userId date : String), getArtifactsByDay true db userId date = []) ∧
    (∀ (db : DB) (userId : String) (st : ArtifactStatus),
      getArtifactsByStatus true db userId st = []) ∧
    (∀ (db : DB) (userId : String), getPendingArtifacts true db userId = []) ∧
    (∀ (e : String) (db : DB) (a : Artifact), saveArtifact (some e) db a = .error e) ∧
    (∀ (db : DB) (a : Artifact),
      saveArtifact none db a = .ok (upsertRow db (artifactToRow a))) :=
  ⟨fun _ _ => rfl, fun _ _ => rfl, fun _ _ _ => rfl, fun _ _ _ => rfl,
   fun _ _ => rfl, fun _ _ _ => rfl, fun _ _ => rfl⟩

/-- Claim C7 (evaluation at the failing input): deleting an id that is not
in the store, with the external store healthy, makes `deleteArtifact`
return `true` and the `DELETE` handler answer `{success: true}` — not the
`false`/404 the claim states.  The handler's 404 branch is reachable only
when the store round trip itself errors. -/
theorem C7_delete_missing_reports_success :
    deleteArtifact false [sampleReadyRow] "missing-id" = (true, [sampleReadyRow]) ∧
    deleteHandler false [sampleReadyRow] "missing-id" = (.success, [sampleReadyRow]) ∧
    deleteArtifact true [sampleReadyRow] "missing-id" = (false, [sampleReadyRow]) ∧
    deleteHandler true [sampleReadyRow] "missing-id" =
      (.notFound "Artifact not found", [sampleReadyRow]) := by
  refine ⟨by decide, by decide, by decide, by decide⟩

/-- Claim C4: in every day group, `stats.total` is the full per-day count,
`stats.pending` counts statuses `pending` and `processing`, `stats.ready`
counts `ready`, `stats.completed` counts `completed`, the four counts plus
the `playing` count sum to the total, and the group's artifact list is
exactly the user's artifacts of that date. -/
theorem C4_dayGroup_stats (err : Bool) (db : DB) (userId : String) :
    ∀ g ∈ getDayGroups err db userId,
      g.stats.total = g.artifacts.length ∧
      g.stats.pending = (g.artifacts.filter (fun a =>
        a.status == .pending || a.status == .processing)).length ∧
      g.stats.ready = (g.artifacts.filter (fun a => a.status == .ready)).length ∧
      g.stats.completed = (g.artifacts.filter (fun a => a.status == .completed)).length ∧
      g.stats.pending + g.stats.ready + g.stats.completed +
        (g.artifacts.filter (fun a => a.status == .playing)).length = g.stats.total ∧
      g.artifacts = (getAllArtifacts err db userId).filter
        (fun a => a.dayBucket == g.date) := by
  intro g hg
  rw [getDayGroups, List.mem_insertionSort] at hg
  rcases List.mem_map.mp hg with ⟨p, hp, hpg⟩
  subst hpg
  have hfil := groupByDay_spec (getAllArtifacts err db userId) p hp
  exact ⟨rfl, rfl, rfl, rfl, status_filter_sum p.2, hfil⟩

/-- Witness for C4 at a one-row store: the single day group is in the
output and its stats satisfy the partition equation. -/
theorem C4_dayGroup_stats_witness :
    mkDayGroup "2024-01-01" [rowToArtifact sampleReadyRow] ∈
      getDayGroups false [sampleReadyRow] DEMO_USER_ID ∧
    (mkDayGroup "2024-01-01" [rowToArtifact sampleReadyRow]).stats.pending +
      (mkDayGroup "2024-01-01" [rowToArtifact sampleReadyRow]).stats.ready +
      (mkDayGroup "2024-01-01" [rowToArtifact sampleReadyRow]).stats.completed +
      ((mkDayGroup "2024-01-01" [rowToArtifact sampleReadyRow]).artifacts.filter
        (fun a => a.status == .playing)).length =
      (mkDayGroup "2024-01-01" [rowToArtifact sampleReadyRow]).stats.total := by
  have hg : mkDayGroup "2024-01-01" [rowToArtifact sampleReadyRow] ∈
      getDayGroups false [sampleReadyRow] DEMO_USER_ID := by decide
  exact ⟨hg, (C4_dayGroup_stats false [sampleReadyRow] DEMO_USER_ID _ hg).2.2.2.2.1⟩

/-- Claim C5: every artifact built by the `POST /api/artifacts` creation
operation has status `pending`, `createdAt` equal to the clock string,
`dayBucket` the date part of `createdAt`, and a title that is the content
itself when it has at most 100 characters and the 100-character cut
followed by `"..."` otherwise. -/
theorem C5_creation_defaults (genId now : String) (b : CreateArtifactInput) :
    (postCreateArtifact genId now b).status = .pending ∧
    (postCreateArtifact genId now b).createdAt = now ∧
    (postCreateArtifact genId now b).dayBucket =
      isoDatePart (postCreateArtifact genId now b).createdAt ∧
    (b.content.length ≤ 100 → (postCreateArtifact genId now b).title = b.content) ∧
    (100 < b.content.length →
      (postCreateArtifact genId now b).title = jsSlice b.content 100 ++ "...") := by
  refine ⟨rfl, rfl, rfl, ?_, ?_⟩
  · intro h
    show deriveTitle b.content = b.content
    unfold deriveTitle
    rw [if_neg (by omega : ¬ b.content.length > 100), jsSlice_of_le h,
      String.append_empty]
  · intro h
    show deriveTitle b.content = jsSlice b.content 100 ++ "..."
    unfold deriveTitle
    rw [if_pos (by omega : b.content.length > 100)]

/-- Witness for C5: creating `{type: 'idea', content: 'Buy milk'}` at a
fixed clock yields title `'Buy milk'`, status `pending`, and dayBucket
`2024-01-01`. -/
theorem C5_creation_defaults_witness :
    (postCreateArtifact "a1" "2024-01-01T10:00:00.000Z"
      { type := .idea, content := "Buy milk" }).title = "Buy milk" ∧
    (postCreateArtifact "a1" "2024-01-01T10:00:00.000Z"
      { type := .idea, content := "Buy milk" }).status = .pending ∧
    (postCreateArtifact "a1" "2024-01-01T10:00:00.000Z"
      { type := .idea, content := "Buy milk" }).dayBucket = "2024-01-01" := by
  have h := C5_creation_defaults "a1" "2024-01-01T10:00:00.000Z"
    { type := .idea, content := "Buy milk" }
  exact ⟨h.2.2.2.1 (by decide), h.1, h.2.2.1.trans (by decide)⟩

/-- Counterexample to claim C1: the `POST /api/artifacts` creation
operation, given URL-shaped content with no `sourceUrl` and no
`imageData`, keeps the requested type `note` and stores no `sourceUrl` —
URL inference from the content string happens only in the `add_to_queue`
tool, not in the HTTP creation route. -/
theorem C1_counterexample :
    isUrlContent "https://example.com/x" = true ∧
    (postCreateArtifact "a1" "2024-01-01T10:00:00.000Z"
      { type := .note, content := "https://example.com/x" }).type = .note ∧
    (postCreateArtifact "a1" "2024-01-01T10:00:00.000Z"
      { type := .note, content := "https://example.com/x" }).sourceUrl = none := by
  refine ⟨by decide, by decide, by decide⟩

/-- Claim C1 as amended: for `POST /api/artifacts`, non-empty `imageData`
forces type `screenshot`; otherwise a non-empty `sourceUrl` forces type
`article` with `sourceUrl` equal to the supplied URL; otherwise the
requested type stands.  For the `add_to_queue` tool, URL-shaped content
forces type `article` with `sourceUrl` equal to the content; otherwise the
requested type stands; `add_to_queue` never sets `imageData`. -/
theorem C1_type_resolution :
    (∀ (genId now : String) (b : CreateArtifactInput),
      jsTruthyStr b.imageData = true →
      (postCreateArtifact genId now b).type = .screenshot) ∧
    (∀ (genId now : String) (b : CreateArtifactInput),
      jsTruthyStr b.imageData = false → jsTruthyStr b.sourceUrl = true →
      (postCreateArtifact genId now b).type = .article ∧
      (postCreateArtifact genId now b).sourceUrl = b.sourceUrl) ∧
    (∀ (genId now : String) (b : CreateArtifactInput),
      jsTruthyStr b.imageData = false → jsTruthyStr b.sourceUrl = false →
      (postCreateArtifact genId now b).type = b.type) ∧
    (∀ (genId now : String) (ty : ArtifactType) (content : String),
      isUrlContent content = true →
      (addToQueueArtifact genId now ty content).type = .article ∧
      (addToQueueArtifact genId now ty content).sourceUrl = some content) ∧
    (∀ (genId now : String) (ty : ArtifactType) (content : String),
      isUrlContent content = false →
      (addToQueueArtifact genId now ty content).type = ty ∧
      (addToQueueArtifact genId now ty content).sourceUrl = none) ∧
    (∀ (genId now : String) (ty : ArtifactType) (content : String),
      (addToQueueArtifact genId now ty content).imageData = none) := by
  refine ⟨?_, ?_, ?_, ?_, ?_, ?_⟩ <;> intros <;> simp_all [postCreateArtifact, addToQueueArtifact]

/-- Witness for the amended C1 at concrete inputs: a supplied `sourceUrl`
yields an `article`, `imageData` wins over it, and URL-shaped
`add_to_queue` content yields an `article` whose `sourceUrl` is the
content. -/
theorem C1_type_resolution_witness :
    (postCreateArtifact "a1" "2024-01-01T10:00:00.000Z"
      { type := .note, content := "check this",
        sourceUrl := some "https://example.com/x" }).type = .article ∧
    (postCreateArtifact "a1" "2024-01-01T10:00:00.000Z"
      { type := .note, content := "check this",
        sourceUrl := some "https://example.com/x" }).sourceUrl =
      some "https://example.com/x" ∧
    (postCreateArtifact "a1" "2024-01-01T10:00:00.000Z"
      { type := .idea, content := "shot", sourceUrl := some "https://e.com",
        imageData := some "ZGF0YQ==" }).type = .screenshot ∧
    (addToQueueArtifact "a2" "2024-01-01T10:00:00.000Z" .note
      "https://example.com/x").type = .article ∧
    (addToQueueArtifact "a2" "2024-01-01T10:00:00.000Z" .note
      "https://example.com/x").sourceUrl = some "https://example.com/x" := by
  refine ⟨(C1_type_resolution.2.1 "a1" "2024-01-01T10:00:00.000Z" _
      (by decide) (by decide)).1,
    (C1_type_resolution.2.1 "a1" "2024-01-01T10:00:00.000Z" _
      (by decide) (by decide)).2,
    C1_type_resolution.1 "a1" "2024-01-01T10:00:00.000Z" _ (by decide),
    (C1_type_resolution.2.2.2.1 "a2" "2024-01-01T10:00:00.000Z" .note
      "https://example.com/x" (by decide)).1,
    (C1_type_resolution.2.2.2.1 "a2" "2024-01-01T10:00:00.000Z" .note
      "https://example.com/x" (by decide)).2⟩

/-- Claim C8: the day groups returned by `getDayGroups` are pairwise in
descending lexicographic date order. -/
theorem C8_dayGroups_sorted_desc (err : Bool) (db : DB) (userId : String) :
    List.Pairwise (fun g₁ g₂ : DayGroup => g₂.date ≤ g₁.date)
      (getDayGroups err db userId) := by
  have h := List.sorted_insertionSort dayGroupDateDesc
    ((groupByDay (getAllArtifacts err db userId)).map (fun p => mkDayGroup p.1 p.2))
  exact h

/-- Claim C2: the status-update operation never overwrites a set
timestamp: updating to `playing` when `playedAt` already holds a
(non-empty) timestamp leaves it unchanged, likewise `completed` and
`completedAt`; and two successive `updateStatus(id, 'playing')` calls
never change `playedAt` after the first call assigned it (same for
`completed`/`completedAt`). -/
theorem C2_timestamp_stamping_idempotent :
    (∀ (now : String) (db : DB) (id : String) (patch : Option StatusPatch)
        (a : Artifact) (t : String),
      getArtifact false db id = some a → a.playedAt = some t → t ≠ "" →
      (updateArtifactStatus false false now db id .playing patch).1.map
        Artifact.playedAt = some (some t)) ∧
    (∀ (now : String) (db : DB) (id : String) (patch : Option StatusPatch)
        (a : Artifact) (t : String),
      getArtifact false db id = some a → a.completedAt = some t → t ≠ "" →
      (updateArtifactStatus false false now db id .completed patch).1.map
        Artifact.completedAt = some (some t)) ∧
    (∀ (now₁ now₂ : String) (db : DB) (id : String)
        (patch₁ patch₂ : Option StatusPatch) (a₁ : Artifact),
      now₁ ≠ "" →
      (updateArtifactStatus false false now₁ db id .playing patch₁).1 = some a₁ →
      (updateArtifactStatus false false now₂
          (updateArtifactStatus false false now₁ db id .playing patch₁).2
          id .playing patch₂).1.map Artifact.playedAt = some a₁.playedAt) ∧
    (∀ (now₁ now₂ : String) (db : DB) (id : String)
        (patch₁ patch₂ : Option StatusPatch) (a₁ : Artifact),
      now₁ ≠ "" →
      (updateArtifactStatus false false now₁ db id .completed patch₁).1 = some a₁ →
      (updateArtifactStatus false false now₂
          (updateArtifactStatus false false now₁ db id .completed patch₁).2
          id .completed patch₂).1.map Artifact.completedAt = some a₁.completedAt) := by
  refine ⟨?_, ?_, ?_, ?_⟩
  · intro now db id patch a t hget hpa ht
    rw [getArtifact_false] at hget
    rcases Option.map_eq_some'.mp hget with ⟨r, hr, hra⟩
    subst hra
    have hrp : r.played_at = some t := hpa
    have htr : jsTruthyStr r.played_at = true := by
      rw [hrp]
      simp [jsTruthyStr, ht]
    exact (upd_playing_keeps_played now db id patch r hr htr).trans (by rw [hrp])
  · intro now db id patch a t hget hpa ht
    rw [getArtifact_false] at hget
    rcases Option.map_eq_some'.mp hget with ⟨r, hr, hra⟩
    subst hra
    have hrp : r.completed_at = some t := hpa
    have htr : jsTruthyStr r.completed_at = true := by
      rw [hrp]
      simp [jsTruthyStr, ht]
    exact (upd_completed_keeps_completed now db id patch r hr htr).trans (by rw [hrp])
  · intro now₁ now₂ db id patch₁ patch₂ a₁ hn h₁
    rcases upd_playing_post now₁ db id patch₁ a₁ hn h₁ with ⟨r₁, hsingle, hra, htr⟩
    have hfinal := upd_playing_keeps_played now₂
      ((updateArtifactStatus false false now₁ db id .playing patch₁).2) id patch₂ r₁
      hsingle htr
    rw [hfinal, ← hra]
    rfl
  · intro now₁ now₂ db id patch₁ patch₂ a₁ hn h₁
    rcases upd_completed_post now₁ db id patch₁ a₁ hn h₁ with ⟨r₁, hsingle, hra, htr⟩
    have hfinal := upd_completed_keeps_completed now₂
      ((updateArtifactStatus false false now₁ db id .completed patch₁).2) id patch₂ r₁
      hsingle htr
    rw [hfinal, ← hra]
    rfl

/-- Witness for C2: on a row whose `played_at` is already stamped, a
further `playing` update keeps the stamp; and on a fresh row, a first
`playing` update stamps `playedAt` with the clock and a second `playing`
update at a later clock leaves the first stamp in place. -/
theorem C2_timestamp_stamping_witness :
    (updateArtifactStatus false false "2024-02-02T00:00:00.000Z" [samplePlayedRow]
      "e3" .playing none).1.map Artifact.playedAt =
      some (some "2024-01-01T09:00:00.000Z") ∧
    (updateArtifactStatus false false "2024-03-02T00:00:00.000Z"
      (updateArtifactStatus false false "2024-03-01T00:00:00.000Z" [sampleReadyRow]
        "e1" .playing none).2 "e1" .playing none).1.map Artifact.playedAt =
      some (some "2024-03-01T00:00:00.000Z") := by
  constructor
  · exact C2_timestamp_stamping_idempotent.1 "2024-02-02T00:00:00.000Z"
      [samplePlayedRow] "e3" none (rowToArtifact samplePlayedRow)
      "2024-01-01T09:00:00.000Z" (by decide) (by decide) (by decide)
  · exact (C2_timestamp_stamping_idempotent.2.2.1 "2024-03-01T00:00:00.000Z"
      "2024-03-02T00:00:00.000Z" [sampleReadyRow] "e1" none none
      (rowToArtifact { sampleReadyRow with
        status := .playing, played_at := some "2024-03-01T00:00:00.000Z" })
      (by decide) (by decide)).trans (by decide)

/-- Claim C10: a successful `updateArtifactStatus` changes only `status`,
the conditionally stamped timestamps, and the four patchable fields; `id`,
`userId`, `type`, `rawContent`, `sourceUrl`, `imageData`, `createdAt` and
`dayBucket` are untouched, and `summary`/`fullAudioText`/`title`/`tags`
are untouched whenever the patch does not supply them. -/
theorem C10_update_frame (now : String) (db : DB) (id : String)
    (st : ArtifactStatus) (patch : Option StatusPatch) (a a' : Artifact) (db' : DB)
    (hget : getArtifact false db id = some a)
    (hupd : updateArtifactStatus false false now db id st patch = (some a', db')) :
    a'.id = a.id ∧ a'.userId = a.userId ∧ a'.type = a.type ∧
    a'.rawContent = a.rawContent ∧ a'.sourceUrl = a.sourceUrl ∧
    a'.imageData = a.imageData ∧ a'.createdAt = a.createdAt ∧
    a'.dayBucket = a.dayBucket ∧ a'.status = st ∧
    (patchSummary patch = none → a'.summary = a.summary) ∧
    (patchFullAudioText patch = none → a'.fullAudioText = a.fullAudioText) ∧
    (patchTitle patch = none → a'.title = a.title) ∧
    (patchTags patch = none → a'.tags = a.tags) := by
  rw [getArtifact_false] at hget
  rcases Option.map_eq_some'.mp hget with ⟨r, hr, hra⟩
  rw [updateArtifactStatus_some now db id st patch r hr] at hupd
  have ha' : rowToArtifact (applyRowUpdates
      (buildUpdates now (rowToArtifact r) st patch) r) = a' := by
    have h1 := congrArg Prod.fst hupd
    simpa using h1
  subst ha'
  subst hra
  rw [buildUpdates_spec]
  refine ⟨rfl, rfl, rfl, rfl, rfl, rfl, rfl, rfl, rfl, ?_, ?_, ?_, ?_⟩
  · intro h
    show (match patchSummary patch with | some v => some v | none => r.summary) = r.summary
    rw [h]
  · intro h
    show (match patchFullAudioText patch with
      | some v => some v | none => r.full_audio_text) = r.full_audio_text
    rw [h]
  · intro h
    show (match patchTitle patch with | some v => v | none => r.title) = r.title
    rw [h]
  · intro h
    show (match patchTags patch with | some v => v | none => r.tags) = r.tags
    rw [h]

/-- Witness for C10: updating the sample row to `processing` with a patch
supplying only `summary` leaves `title`, `tags`, `dayBucket`, `type` and
`rawContent` as they were. -/
theorem C10_update_frame_witness :
    (rowToArtifact { sampleReadyRow with
      status := .processing, summary := some "a summary" }).title =
        (rowToArtifact sampleReadyRow).title ∧
    (rowToArtifact { sampleReadyRow with
      status := .processing, summary := some "a summary" }).tags =
        (rowToArtifact sampleReadyRow).tags ∧
    (rowToArtifact { sampleReadyRow with
      status := .processing, summary := some "a summary" }).dayBucket =
        (rowToArtifact sampleReadyRow).dayBucket ∧
    (rowToArtifact { sampleReadyRow with
      status := .processing, summary := some "a summary" }).type =
        (rowToArtifact sampleReadyRow).type ∧
    (rowToArtifact { sampleReadyRow with
      status := .processing, summary := some "a summary" }).rawContent =
        (rowToArtifact sampleReadyRow).rawContent := by
  have h := C10_update_frame "2024-02-01T00:00:00.000Z" [sampleReadyRow] "e1"
    .processing (some { summary := some "a summary" })
    (rowToArtifact sampleReadyRow)
    (rowToArtifact { sampleReadyRow with
      status := .processing, summary := some "a summary" })
    [{ sampleReadyRow with status := .processing, summary := some "a summary" }]
    (by decide) (by decide)
  exact ⟨h.2.2.2.2.2.2.2.2.2.2.2.1 (by decide), h.2.2.2.2.2.2.2.2.2.2.2.2 (by decide),
    h.2.2.2.2.2.2.2.1, h.2.2.1, h.2.2.2.1⟩

/-- Claim C9: the tool-call facade answers with structured payloads, not
thrown faults: a name outside the five-tool catalogue yields a
`structuredContent` carrying `error: 'Unknown tool: <name>'`, and
`get_episode_content` / `mark_episode_complete` on an `episode_id` the
store cannot resolve yield `error: 'Episode not found'`. -/
theorem C9_structured_errors :
    (∀ (storeErr : Bool) (errSave : Option String) (now genId : String)
        (expand : String → ArtifactType → String) (db : DB) (args : ToolArgs)
        (name : String),
      name ∉ ["show_drivetime", "get_todays_episodes", "get_episode_content",
        "mark_episode_complete", "add_to_queue"] →
      handleToolCall storeErr errSave now genId expand db name args =
        .ok ({ structuredContent := some (.errorField ("Unknown tool: " ++ name)),
               content := [⟨"text", "Unknown tool: " ++ name⟩] }, db)) ∧
    (∀ (storeErr : Bool) (errSave : Option String) (now genId : String)
        (expand : String → ArtifactType → String) (db : DB) (args : ToolArgs),
      getArtifact storeErr db args.episode_id = none →
      handleToolCall storeErr errSave now genId expand db "get_episode_content" args =
        .ok ({ structuredContent := some (.errorField "Episode not found"),
               content := [⟨"text", "Episode not found."⟩] }, db)) ∧
    (∀ (storeErr : Bool) (errSave : Option String) (now genId : String)
        (expand : String → ArtifactType → String) (db : DB) (args : ToolArgs),
      getArtifact storeErr db args.episode_id = none →
      handleToolCall storeErr errSave now genId expand db "mark_episode_complete" args =
        .ok ({ structuredContent := some (.errorField "Episode not found"),
               content := [⟨"text", "Episode not found."⟩] }, db)) := by
  refine ⟨?_, ?_, ?_⟩
  · intro storeErr errSave now genId expand db args name hname
    simp only [List.mem_cons, List.not_mem_nil, or_false, not_or] at hname
    obtain ⟨h1, h2, h3, h4, h5⟩ := hname
    rw [handleToolCall, if_neg h1, if_neg h2, if_neg h3, if_neg h4, if_neg h5]
  · intro storeErr errSave now genId expand db args h
    rw [handleToolCall, if_neg (by decide), if_neg (by decide), if_pos rfl]
    simp only [h]
  · intro storeErr errSave now genId expand db args h
    have hupd : updateArtifactStatus storeErr storeErr now db args.episode_id
        .completed none = (none, db) := by
      rw [updateArtifactStatus, h]
    rw [handleToolCall, if_neg (by decide), if_neg (by decide), if_neg (by decide),
      if_pos rfl]
    simp only [hupd]

/-- Witness for C9: an unknown tool name and an unknown episode id each
produce the structured error response on a concrete store. -/
theorem C9_structured_errors_witness :
    handleToolCall false none "2024-01-01T10:00:00.000Z" "g1" (fun c _ => c)
      [sampleReadyRow] "bogus_tool" {} =
      .ok ({ structuredContent := some (.errorField ("Unknown tool: " ++ "bogus_tool")),
             content := [⟨"text", "Unknown tool: " ++ "bogus_tool"⟩] }, [sampleReadyRow]) ∧
    handleToolCall false none "2024-01-01T10:00:00.000Z" "g1" (fun c _ => c)
      [sampleReadyRow] "get_episode_content" { episode_id := "nope" } =
      .ok ({ structuredContent := some (.errorField "Episode not found"),
             content := [⟨"text", "Episode not found."⟩] }, [sampleReadyRow]) ∧
    handleToolCall false none "2024-01-01T10:00:00.000Z" "g1" (fun c _ => c)
      [sampleReadyRow] "mark_episode_complete" { episode_id := "nope" } =
      .ok ({ structuredContent := some (.errorField "Episode not found"),
             content := [⟨"text", "Episode not found."⟩] }, [sampleReadyRow]) := by
  refine ⟨C9_structured_errors.1 false none "2024-01-01T10:00:00.000Z" "g1"
      (fun c _ => c) [sampleReadyRow] {} "bogus_tool" (by decide),
    C9_structured_errors.2.1 false none "2024-01-01T10:00:00.000Z" "g1"
      (fun c _ => c) [sampleReadyRow] { episode_id := "nope" } (by decide),
    C9_structured_errors.2.2 false none "2024-01-01T10:00:00.000Z" "g1"
      (fun c _ => c) [sampleReadyRow] { episode_id := "nope" } (by decide)⟩

end DriveTime
